import Mathlib

/-!
# Verification of the rpi2casterd Interface (rpi2casterd/main.py)

Shallow embedding of the `Interface` class of `rpi2casterd/main.py`.

Modelling conventions:

* Python strings stay `String`; Python sets of signal names become `Finset String`
  (order-free, with cardinality for `len`); ordered signal lists stay `List String`.
* Timestamps and configured durations become `ℚ` (the source uses floats from
  `time.time()`; exact rationals keep the arithmetic decidable).
* Mutable `Interface` state becomes the record `IState`, and every method becomes a
  function `IState → Except Err α × IState`: on an exception the partially mutated
  state is retained, exactly as a raised Python exception leaves the object.
* GPIO outputs that the claims observe (`working_led`, `error_led`) are booleans in
  the state.  Calls to the valve-bank driver (`output.valves_on` / `valves_off`)
  are recorded in a ghost log `valveLog`, and each `send_signals` invocation is
  recorded (argument list and timeout) in the ghost log `sent`; the logs are pure
  instrumentation and influence nothing.
* `time.sleep` is a no-op.  In this state-level model the machine cycle sensor
  cooperates, so `wait_for_sensor` / `check_rotation` succeed without state change
  and no emergency-stop edge is pending for the `handle_machine_stop` wrapper;
  the real-time behaviour of `wait_for_sensor` together with the emergency-stop
  polling of `handle_machine_stop` is modelled separately and exactly, below, as
  `wait_for_sensor_model` over an explicit tick trace.
-/

/-- Exception kinds of `rpi2casterd.exceptions` raised by `main.py`, plus
`fuelOut`, a model artifact marking exhaustion of the fuel that bounds the
(unbounded) `while` loop of `pump_control`; the theorems below only ever
exhibit runs that terminate long before the fuel runs out. -/
inductive Err where
  | InterfaceBusy : Err
  | InterfaceNotStarted : Err
  | UnsupportedMode : String → Err
  | UnsupportedRow16Mode : String → Err
  | MachineStopped : Err
  | UnknownMode : String → Err
  | fuelOut : Err
deriving DecidableEq

/-- One call to the valve-bank driver: `output.valves_on(signals)` or
`output.valves_off()`. -/
inductive ValveEvent where
  | on : Finset String → ValveEvent
  | off : ValveEvent
deriving DecidableEq

/-- The interface configuration (`config_dict` of `Interface.__init__`), reduced to
the fields the modelled methods read.  Durations are in seconds.
`default_mode` and `default_row16_mode` are listed in the spec's configuration
contract (§6); their parsing lives in `rpi2casterd/converters.py`, which is not
under src/, so here they are plain fields. -/
structure Config where
  sensor_timeout : ℚ
  startup_timeout : ℚ
  pump_stop_timeout : ℚ
  punching_on_time : ℚ
  punching_off_time : ℚ
  supported_modes : List String
  supported_row16_modes : List String
  default_mode : Option String
  default_row16_mode : Option String
deriving DecidableEq

/-- The configuration built from the `DEFAULTS` dict of `main.py`
(`sensor_timeout='5'`, `pump_stop_timeout='120'`, `punching_on_time='0.2'`,
`punching_off_time='0.3'`, `startup_timeout='30'`,
`supported_modes='casting, punching'`,
`supported_row16_modes='HMN, KMN, unit shift'`); `DEFAULTS` carries no
`default_mode` / `default_row16_mode` key, so for concrete runs we take
casting resp. no row-16 mode, per the spec's data model (§3). -/
def defaultConfig : Config :=
  { sensor_timeout := 5
    startup_timeout := 30
    pump_stop_timeout := 120
    punching_on_time := 1/5
    punching_off_time := 3/10
    supported_modes := ["casting", "punching"]
    supported_row16_modes := ["HMN", "KMN", "unit shift"]
    default_mode := some "casting"
    default_row16_mode := none }

/-- The mutable state of one `Interface`: the `self.state` dict, `self.signals`,
`self.meter_events`, the two mode attributes (the source stores them in
`self.__dict__` with a getter substituting the configured default; per the
spec's design note §9 this abstracts to explicit fields initialized to the
defaults), the two LED lines the claims observe, and the two ghost logs. -/
structure IState where
  working : Bool
  water : Bool
  air : Bool
  motor : Bool
  pump : Bool
  sensor : Bool
  wedge_0005 : Nat
  wedge_0075 : Nat
  signals : List String
  meter_events : List ℚ
  operation_mode : Option String
  row16_mode : Option String
  working_led : Bool
  error_led : Bool
  valveLog : List ValveEvent
  sent : List (List String × Option ℚ)
deriving DecidableEq

/-- `Interface.__init__`: empty state, wedges at 15, no signals, no events. -/
def initState (cfg : Config) : IState :=
  { working := false, water := false, air := false, motor := false
    pump := false, sensor := false
    wedge_0005 := 15, wedge_0075 := 15
    signals := [], meter_events := []
    operation_mode := cfg.default_mode
    row16_mode := cfg.default_row16_mode
    working_led := false, error_led := false
    valveLog := [], sent := [] }

deriving instance DecidableEq for Except

/-- The result of a method call: the returned value or the raised exception,
together with the state of the object afterwards (kept also when raising). -/
abbrev Res (α : Type) : Type := Except Err α × IState

/-- Sequencing of method bodies: an exception aborts the rest of the body and
propagates, keeping the state reached so far. -/
def bindR {α β : Type} (r : Res α) (f : α → IState → Res β) : Res β :=
  match r with
  | (Except.ok a, s) => f a s
  | (Except.error e, s) => (Except.error e, s)

/-! ## Signal codec

`strip_16`, `convert_o15`, `strip_o15`, `add_missing_o15` are the inner functions
of `Interface.prepare_signals` (main.py lines 655-699), translated literally.
Note that Python's `set.update('O15')` iterates over the *string* `'O15'` and
therefore inserts the three one-character elements `"O"`, `"1"`, `"5"` — not the
single signal name `"O15"`; the embedding reproduces that. -/

/-- `str.upper()`: ASCII upper-casing, character by character (the library's
`String.toUpper` is the same map but is compiled by well-founded recursion,
which would block kernel evaluation of concrete runs). -/
def upperStr (s : String) : String := String.mk (s.data.map Char.toUpper)

/-- `strip_16`: upper-case everything, then replace a `"16"` by `"15"`. -/
def strip_16 (source : List String) : Finset String :=
  let sigset := (source.map upperStr).toFinset
  if "16" ∈ sigset then insert "15" (sigset.erase "16") else sigset

/-- `convert_o15`: for each of `'O'`, `'15'` present, discard it and
`update('O15')` (i.e. insert the characters `"O"`, `"1"`, `"5"`). -/
def convert_o15 (source : Finset String) : Finset String :=
  let s1 := if "O" ∈ source
    then insert "5" (insert "1" (insert "O" (source.erase "O"))) else source
  if "15" ∈ s1 then insert "5" (insert "1" (insert "O" (s1.erase "15"))) else s1

/-- `strip_o15`: discard the combined `"O15"` signal. -/
def strip_o15 (source : Finset String) : Finset String := source.erase "O15"

/-- `add_missing_o15`: with fewer than two signals, `update('O15')`
(i.e. insert the characters `"O"`, `"1"`, `"5"`). -/
def add_missing_o15 (source : Finset String) : Finset String :=
  if source.card < 2 then insert "5" (insert "1" (insert "O" source)) else source

/-- Modelled from the spec: `cv.convert_unitshift`, `cv.convert_hmn` and
`cv.convert_kmn` live in `rpi2casterd/converters.py`, which is not under src/,
and the spec (§4.3) fixes no concrete pin mapping for them.  This placeholder
(the upper-cased input set) stands for them in `prepare_signals`' dispatch;
every theorem below runs with `row16_mode = none`, where main.py's own
`strip_16` applies, so no proof depends on this definition's behaviour. -/
def convert_row16_other (source : List String) : Finset String :=
  (source.map upperStr).toFinset

/-- The three keys of the `o15_converters` dict in `prepare_signals`
(`'casting'`, `'punching'`, `None`); `prepare_signals` is only called by
`cast` / `punch` / `test`, each immediately after setting the matching
operation mode. -/
inductive OpMode3 where
  | casting : OpMode3
  | punching : OpMode3
  | testing : OpMode3
deriving DecidableEq

/-- `Interface.prepare_signals`: apply the row-16 conversion selected by
`row16_mode` (`None` → `strip_16`; other modes live in the absent
`converters.py`, see `convert_row16_other`), then the O/15 transform selected
by the operation mode. -/
def prepareSignals (m : OpMode3) (row16 : Option String) (input : List String) :
    Finset String :=
  let signals := match row16 with
    | none => strip_16 input
    | some _ => convert_row16_other input
  match m with
  | OpMode3.casting => strip_o15 signals
  | OpMode3.punching => add_missing_o15 signals
  | OpMode3.testing => convert_o15 signals

/-- Modelled from the spec: `cv.ordered_signals` lives in
`rpi2casterd/converters.py`, which is not under src/.  Per spec §4.3 it returns
the input names in the canonical order implied by the concatenation of the four
configured valve tuples; `valveOrder` is that concatenation for the `DEFAULTS`
valve1..valve4 of main.py. -/
def valveOrder : List String :=
  ["N", "M", "L", "K", "J", "I", "H", "G",
   "F", "S", "E", "D", "0075", "C", "B", "A",
   "1", "2", "3", "4", "5", "6", "7", "8",
   "9", "10", "11", "12", "13", "14", "0005", "O15"]

/-- Modelled from the spec (see `valveOrder`): the members of the set, in the
canonical valve order. -/
def ordered_signals (sigs : Finset String) : List String :=
  valveOrder.filter (fun v => v ∈ sigs)

/-! ## Pump and wedge inference -/

/-- `found(code)` inside `update_pump_and_wedges` / `check_pump`:
`set(code).issubset(self.signals)` where `self.signals` is the stored list. -/
def foundIn (sigs : List String) (code : List String) : Bool :=
  code.all (fun c => c ∈ sigs)

/-- The `for pos in range(1, 15): ... else: 15` scan of
`update_pump_and_wedges`: the smallest `pos` in 1..14 whose decimal name is in
the signal list, or 15 when none is. -/
def minRowOr15 (sigs : List String) : Nat :=
  match (List.range' 1 14).find? (fun pos => toString pos ∈ sigs) with
  | some pos => pos
  | none => 15

/-- The pump branch of `update_pump_and_wedges` as a function of the stored
signal list: `0075`/`N`+`K` present → on; else `0005`/`N`+`J` present → off;
else unchanged. -/
def pumpFromSignals (sigs : List String) (pump : Bool) : Bool :=
  if foundIn sigs ["0075"] || foundIn sigs ["N", "K"] then true
  else if foundIn sigs ["0005"] || foundIn sigs ["N", "J"] then false
  else pump

/-- The 0075-wedge branch of `update_pump_and_wedges`. -/
def wedge0075FromSignals (sigs : List String) (old : Nat) : Nat :=
  if foundIn sigs ["0075"] || foundIn sigs ["N", "K"] then minRowOr15 sigs else old

/-- The 0005-wedge branch of `update_pump_and_wedges`. -/
def wedge0005FromSignals (sigs : List String) (old : Nat) : Nat :=
  if foundIn sigs ["0005"] || foundIn sigs ["N", "J"] then minRowOr15 sigs else old

/-- `Interface.update_pump_and_wedges` (main.py lines 445-473): updates pump and
the two wedges from the *stored* `self.signals` list. -/
def update_pump_and_wedges (s : IState) : IState :=
  { s with
    pump := pumpFromSignals s.signals s.pump
    wedge_0075 := wedge0075FromSignals s.signals s.wedge_0075
    wedge_0005 := wedge0005FromSignals s.signals s.wedge_0005 }

/-! ## Valve control -/

/-- The argument of `Interface.valves_control`, following its Python truthiness
dispatch: a signal set (an *empty* set is falsy in Python and so takes the
"off" branch, handled inside `valves_control`), the `False`/`OFF` sentinel, or
`None`. -/
inductive VArg where
  | sigs : Finset String → VArg
  | off : VArg
  | none : VArg
deriving DecidableEq

/-- `Interface.valves_control` (main.py lines 475-487).  Truthy argument:
`output.valves_on(state)`, then `update_pump_and_wedges()` (which reads the
previously stored `self.signals`), then `self.signals = cv.ordered_signals(state)`.
Falsy non-`None` argument (`OFF`, or an empty set): `output.valves_off()`.
`None`: no-op.  Returns `self.signals`. -/
def valves_control (arg : VArg) (s : IState) : Res (List String) :=
  match arg with
  | VArg.sigs v =>
    if v.Nonempty then
      let s1 := { s with valveLog := s.valveLog ++ [ValveEvent.on v] }
      let s2 := update_pump_and_wedges s1
      let s3 := { s2 with signals := ordered_signals v }
      (Except.ok s3.signals, s3)
    else
      let s1 := { s with valveLog := s.valveLog ++ [ValveEvent.off] }
      (Except.ok s1.signals, s1)
  | VArg.off =>
    let s1 := { s with valveLog := s.valveLog ++ [ValveEvent.off] }
    (Except.ok s1.signals, s1)
  | VArg.none => (Except.ok s.signals, s)

/-! ## Mode setters -/

/-- The `operation_mode` setter (main.py lines 317-326).  The argument is a
Python string or `None`; `'reset'` restores the configured default; `None` or
a supported mode is stored; anything else raises `UnsupportedMode`. -/
def setOperationMode (cfg : Config) (mode : Option String) (s : IState) : Res Unit :=
  if mode = some "reset" then
    (Except.ok (), { s with operation_mode := cfg.default_mode })
  else if mode = none then (Except.ok (), { s with operation_mode := none })
  else if mode.getD "" ∈ cfg.supported_modes then
    (Except.ok (), { s with operation_mode := mode })
  else (Except.error (Err.UnsupportedMode (mode.getD "")), s)

/-- The `row16_mode` setter (main.py lines 334-351).  `'reset'` restores the
default; `None` always turns it off; while casting, only a supported mode is
stored and anything else raises `UnsupportedRow16Mode`; otherwise one of
`'HMN'`, `'KMN'`, `'unit shift'` is stored and any other value is silently
ignored (the setter falls through without an `else`). -/
def setRow16Mode (cfg : Config) (mode : Option String) (s : IState) : Res Unit :=
  if mode = some "reset" then
    (Except.ok (), { s with row16_mode := cfg.default_row16_mode })
  else if mode = none then (Except.ok (), { s with row16_mode := none })
  else if s.operation_mode = some "casting" then
    if mode.getD "" ∈ cfg.supported_row16_modes then
      (Except.ok (), { s with row16_mode := mode })
    else (Except.error (Err.UnsupportedRow16Mode (mode.getD "")), s)
  else if mode.getD "" ∈ ["HMN", "KMN", "unit shift"] then
    (Except.ok (), { s with row16_mode := mode })
  else (Except.ok (), s)

/-! ## The cycle dispatcher: cast / punch / test / send_signals

In this state-level model the cycle sensor cooperates and no emergency-stop
edge is latched, so `wait_for_sensor` succeeds leaving the state unchanged and
the `handle_machine_stop` wrapper is the identity (the exact tick-level
behaviour of `wait_for_sensor` is `wait_for_sensor_model` below); `time.sleep`
is a no-op. -/

/-- `Interface.cast` (main.py lines 722-736; the name `cast` itself is taken by
Lean's core library): set mode casting; prepare; wait for sensor ON; valves on;
wait for sensor OFF; valves off. -/
def castOp (cfg : Config) (input : List String) (s : IState) : Res Unit :=
  bindR (setOperationMode cfg (some "casting") s) (fun _ s1 =>
    let codes := prepareSignals OpMode3.casting s1.row16_mode input
    bindR (valves_control (VArg.sigs codes) s1) (fun _ s2 =>
      bindR (valves_control VArg.off s2) (fun _ s3 => (Except.ok (), s3))))

/-- `Interface.punch` (main.py lines 747-760): set mode punching; prepare;
valves on; sleep `punching_on_time`; valves off; sleep `punching_off_time`. -/
def punch (cfg : Config) (input : List String) (s : IState) : Res Unit :=
  bindR (setOperationMode cfg (some "punching") s) (fun _ s1 =>
    let codes := prepareSignals OpMode3.punching s1.row16_mode input
    bindR (valves_control (VArg.sigs codes) s1) (fun _ s2 =>
      bindR (valves_control VArg.off s2) (fun _ s3 => (Except.ok (), s3))))

/-- `Interface.test` (main.py lines 738-745): set mode testing (`None`);
prepare; valves off; valves on with the new combination. -/
def test (cfg : Config) (input : List String) (s : IState) : Res Unit :=
  bindR (setOperationMode cfg none s) (fun _ s1 =>
    let codes := prepareSignals OpMode3.testing s1.row16_mode input
    bindR (valves_control VArg.off s1) (fun _ s2 =>
      bindR (valves_control (VArg.sigs codes) s2) (fun _ s3 => (Except.ok (), s3))))

/-- `Interface.send_signals` (main.py lines 701-720): raise
`InterfaceNotStarted` unless working, then dispatch on the operation mode
(`actions[self.operation_mode]`; a mode outside the three dict keys is a
`KeyError`, modelled as `UnknownMode`).  Each accepted invocation is recorded
(argument list and the `timeout` argument) in the ghost `sent` log. -/
def send_signals (cfg : Config) (sigs : List String) (timeout : Option ℚ)
    (s : IState) : Res Unit :=
  if s.working then
    let s0 := { s with sent := s.sent ++ [(sigs, timeout)] }
    if s0.operation_mode = some "casting" then castOp cfg sigs s0
    else if s0.operation_mode = some "punching" then punch cfg sigs s0
    else if s0.operation_mode = none then test cfg sigs s0
    else (Except.error (Err.UnknownMode (s0.operation_mode.getD "")), s0)
  else (Except.error Err.InterfaceNotStarted, s)

/-! ## Pump control -/

/-- The `while self.state['pump']:` loop of `pump_control`'s `stop()` (main.py
lines 582-584): each iteration sends the pump stop combination twice with
`pump_stop_timeout`.  The loop is unbounded in the source; `fuel` bounds the
model, and exhaustion is the artificial `Err.fuelOut` (proven unreachable in
the runs the theorems exhibit). -/
def pumpStopLoop (cfg : Config) (stopCode : List String) :
    Nat → IState → Res Unit
  | 0, s => (Except.error Err.fuelOut, s)
  | fuel + 1, s =>
    if s.pump then
      bindR (send_signals cfg stopCode (some cfg.pump_stop_timeout) s) (fun _ s1 =>
        bindR (send_signals cfg stopCode (some cfg.pump_stop_timeout) s1) (fun _ s2 =>
          pumpStopLoop cfg stopCode fuel s2))
    else (Except.ok (), s)

/-- `Interface.pump_control` (main.py lines 545-597).  `None`: report.  Truthy:
`start()` sends `['N','K','S','0075', str(wedge_0075)]`.  Falsy: `stop()` —
return at once if the pump is off; otherwise remember the working LED state,
turn it off if it was on, turn the error LED on, build the stop combination
`['N','J','S','0005', str(wedge_0005)]` once, loop sending it twice per
iteration until the pump is off, then error LED off and working LED restored.
Returns `self.state['pump']`. -/
def pump_control (cfg : Config) (state : Option Bool) (s : IState) : Res Bool :=
  match state with
  | none => (Except.ok s.pump, s)
  | some true =>
    let code := ["N", "K", "S", "0075", toString s.wedge_0075]
    bindR (send_signals cfg code none s) (fun _ s1 => (Except.ok s1.pump, s1))
  | some false =>
    if s.pump then
      let workingLedState := s.working_led
      let s1 := if workingLedState then { s with working_led := false } else s
      let s2 := { s1 with error_led := true }
      let stopCode := ["N", "J", "S", "0005", toString s2.wedge_0005]
      bindR (pumpStopLoop cfg stopCode 100 s2) (fun _ s3 =>
        let s4 := { s3 with error_led := false }
        let s5 := if workingLedState then { s4 with working_led := true } else s4
        (Except.ok s5.pump, s5))
    else (Except.ok s.pump, s)

/-! ## Justification -/

/-- `Interface.justification` (main.py lines 599-653).  Reads the pump state
and wedge positions, computes the target positions (a falsy argument — `None`
or 0 — keeps the current position, by Python `or`), and dispatches the
double/single justification sequences in the pump-preserving order. -/
def justification (cfg : Config) (galley_trip : Bool)
    (wedge_0005 wedge_0075 : Option Nat) (s : IState) : Res Unit :=
  let pump_working := s.pump
  let current_0005 := s.wedge_0005
  let current_0075 := s.wedge_0075
  let new_0005 := match wedge_0005 with
    | some w => if w = 0 then current_0005 else w
    | none => current_0005
  let new_0075 := match wedge_0075 with
    | some w => if w = 0 then current_0075 else w
    | none => current_0075
  let send_double := fun (code : Nat) (st : IState) =>
    send_signals cfg ["N", "K", "J", "S", "0075", "0005", toString code] none st
  let send_0005 := fun (st : IState) =>
    send_signals cfg ["N", "J", "S", "0005", toString new_0005] none st
  let send_0075 := fun (st : IState) =>
    send_signals cfg ["N", "K", "S", "0075", toString new_0075] none st
  if galley_trip then
    if pump_working then
      bindR (send_double new_0005 s) (fun _ s1 =>
        bindR (send_0075 s1) (fun _ s2 => (Except.ok (), s2)))
    else
      bindR (send_double new_0075 s) (fun _ s1 =>
        bindR (send_0005 s1) (fun _ s2 => (Except.ok (), s2)))
  else if new_0005 = current_0005 ∧ new_0075 = current_0075 then
    (Except.ok (), s)
  else
    if pump_working then
      bindR (send_0005 s) (fun _ s1 =>
        bindR (send_0075 s1) (fun _ s2 => (Except.ok (), s2)))
    else
      bindR (send_0075 s) (fun _ s1 =>
        bindR (send_0005 s1) (fun _ s2 => (Except.ok (), s2)))

/-! ## Motor / air / water control -/

/-- `Interface.motor_control` (main.py lines 489-511): `None` reports; on
pulses the start line and records `motor=true`; off pulses the stop line,
records `motor=false` and clears the RPM event FIFO. -/
def motor_control (state : Option Bool) (s : IState) : Res Bool :=
  match state with
  | none => (Except.ok s.motor, s)
  | some true => (Except.ok true, { s with motor := true })
  | some false => (Except.ok false, { s with motor := false, meter_events := [] })

/-- `Interface.air_control` (main.py lines 513-527). -/
def air_control (state : Option Bool) (s : IState) : Res Bool :=
  match state with
  | none => (Except.ok s.air, s)
  | some true => (Except.ok true, { s with air := true })
  | some false => (Except.ok false, { s with air := false })

/-- `Interface.water_control` (main.py lines 529-543). -/
def water_control (state : Option Bool) (s : IState) : Res Bool :=
  match state with
  | none => (Except.ok s.water, s)
  | some true => (Except.ok true, { s with water := true })
  | some false => (Except.ok false, { s with water := false })

/-! ## Machine control -/

/-- `Interface.machine_control` (main.py lines 353-402).  `start()`: raise
`InterfaceBusy` when already working (before any mutation); otherwise clear the
RPM FIFO, energize air, and while casting also water and motor followed by
`check_rotation` (a no-op here, see the module header); then working LED on and
`working := true`.  `stop()`: return at once when not working; otherwise pump
off, valves off, clear `signals`, while casting also motor and water off, air
off, working LED off, `working := false`.  Returns `self.state['working']`. -/
def machine_control (cfg : Config) (state : Option Bool) (s : IState) : Res Bool :=
  match state with
  | none => (Except.ok s.working, s)
  | some true =>
    if s.working then (Except.error Err.InterfaceBusy, s)
    else
      let s1 := { s with meter_events := [] }
      bindR (air_control (some true) s1) (fun _ s2 =>
        let afterMode : Res Unit :=
          if s2.operation_mode = some "casting" then
            bindR (water_control (some true) s2) (fun _ s3 =>
              bindR (motor_control (some true) s3) (fun _ s4 => (Except.ok (), s4)))
          else (Except.ok (), s2)
        bindR afterMode (fun _ s5 =>
          let s6 := { s5 with working_led := true, working := true }
          (Except.ok s6.working, s6)))
  | some false =>
    if s.working then
      bindR (pump_control cfg (some false) s) (fun _ s1 =>
        bindR (valves_control VArg.off s1) (fun _ s2 =>
          let s3 := { s2 with signals := [] }
          let afterMode : Res Unit :=
            if s3.operation_mode = some "casting" then
              bindR (motor_control (some false) s3) (fun _ s4 =>
                bindR (water_control (some false) s4) (fun _ s5 => (Except.ok (), s5)))
            else (Except.ok (), s3)
          bindR afterMode (fun _ s6 =>
            bindR (air_control (some false) s6) (fun _ s7 =>
              let s8 := { s7 with working_led := false, working := false }
              (Except.ok s8.working, s8)))))
    else (Except.ok s.working, s)

/-! ## RPM meter -/

/-- Rounding to two decimal places (`round(x, 2)`); the source rounds an IEEE
float (round-half-to-even on the binary value), abstracted here to exact
rational rounding to the nearest hundredth. -/
def round2 (x : ℚ) : ℚ := (round (100 * x) : ℤ) / 100

/-- `Interface.rpm` (main.py lines 404-420): on an empty FIFO the
`events[-1]` lookup is an `IndexError`, returning 0; a zero span (including a
single event) or a span above `sensor_timeout` returns 0; otherwise
`round((len(events) - 1) / duration * 60, 2)`. -/
def rpm (sensor_timeout : ℚ) (events : List ℚ) : ℚ :=
  match events with
  | [] => 0
  | e0 :: _ =>
    let duration := events.getLastD 0 - e0
    if duration = 0 ∨ sensor_timeout < duration then 0
    else round2 (((events.length : ℚ) - 1) / duration * 60)

/-- The `update_sensor` callback of `hardware_setup` (main.py lines 252-257):
record the sensor level; on a rising level append the timestamp to the
`deque(maxlen=3)`, keeping only the three newest entries. -/
def sensorEvent (level : Bool) (t : ℚ) (s : IState) : IState :=
  if level then
    let evs := s.meter_events ++ [t]
    { s with sensor := true, meter_events := evs.drop (evs.length - 3) }
  else { s with sensor := false }

/-! ## Tick-level model of `wait_for_sensor` under `handle_machine_stop`

`Interface.wait_for_sensor` (main.py lines 297-309) busy-waits in 10 ms steps:
`while self.state['sensor'] != new_state:` check the elapsed time against the
timeout (raising `MachineStopped`), then `time.sleep(0.01)`.  The decorator
`handle_machine_stop` (lines 95-115) polls the latched emergency-stop edge
with `GPIO.event_detected` once *before* the body and once *after* it; the
body's loop itself never polls it.

Time is discretized into 10 ms ticks: `sensor k` is the sensor level read at
the k-th loop entry (after `k` sleeps), `T` is the timeout in ticks (the check
`time.time() - start_time > timeout` becomes `T < k`), `pendingAtEntry` says an
edge was already latched when the call began, and `edgeDuring = some d` says an
edge is latched at tick `d` of the wait (visible to any `event_detected` poll
at tick `≥ d`). -/

/-- Outcome of a `wait_for_sensor` call: `MachineStopped` raised, or a normal
return, in both cases with the number of wait iterations (sleeps) completed. -/
inductive WaitRes where
  | stopped : Nat → WaitRes
  | ok : Nat → WaitRes
deriving DecidableEq

/-- The `while` loop of `wait_for_sensor`: at tick `k`, exit if the sensor has
the desired level; otherwise raise once the elapsed time exceeds the timeout,
else sleep one tick.  The loop needs at most `T + 2` steps, which the fuel
argument makes structural. -/
def waitLoop (sensor : Nat → Bool) (desired : Bool) (T : Nat) (k : Nat) :
    Nat → WaitRes
  | 0 => WaitRes.stopped k
  | fuel + 1 =>
    if sensor k = desired then WaitRes.ok k
    else if T < k then WaitRes.stopped k
    else waitLoop sensor desired T (k + 1) fuel

/-- Has an edge latched at `edgeDuring` become visible by tick `k`? -/
def edgeBy (edgeDuring : Option Nat) (k : Nat) : Bool :=
  match edgeDuring with
  | some d => decide (d ≤ k)
  | none => false

/-- `wait_for_sensor` as decorated by `handle_machine_stop`: poll the latched
emergency-stop edge on entry, run the loop, poll again on the way out.  An
edge latched during the wait is only seen by the final poll — after the loop
has already run to completion. -/
def wait_for_sensor_model (sensor : Nat → Bool) (desired : Bool) (T : Nat)
    (pendingAtEntry : Bool) (edgeDuring : Option Nat) : WaitRes :=
  if pendingAtEntry then WaitRes.stopped 0
  else
    match waitLoop sensor desired T 0 (T + 2) with
    | WaitRes.ok k => if edgeBy edgeDuring k then WaitRes.stopped k else WaitRes.ok k
    | WaitRes.stopped k => WaitRes.stopped k

/-- Follows the spec's words for claim C3 ("Every iteration also polls the
emergency-stop pending edge; a detected edge raises machine-stopped" without
completing further wait iterations): the same loop, but polling the latch at
the top of every iteration. -/
def waitLoop_claimC3 (sensor : Nat → Bool) (desired : Bool) (T : Nat)
    (edgeDuring : Option Nat) (k : Nat) : Nat → WaitRes
  | 0 => WaitRes.stopped k
  | fuel + 1 =>
    if edgeBy edgeDuring k then WaitRes.stopped k
    else if sensor k = desired then WaitRes.ok k
    else if T < k then WaitRes.stopped k
    else waitLoop_claimC3 sensor desired T edgeDuring (k + 1) fuel

/-- Follows the spec's words for claim C3: entry poll, then the
per-iteration-polling loop. -/
def wait_for_sensor_claimC3 (sensor : Nat → Bool) (desired : Bool) (T : Nat)
    (pendingAtEntry : Bool) (edgeDuring : Option Nat) : WaitRes :=
  if pendingAtEntry then WaitRes.stopped 0
  else waitLoop_claimC3 sensor desired T edgeDuring 0 (T + 2)

/-! ## Reachable interface states -/

/-- One public operation on an `Interface`, relating the state before to the
state after (the state is retained also when the operation raises): the
methods the HTTP façade maps one-to-one (§6 of the spec) plus the sensor edge
callback. -/
inductive Step (cfg : Config) : IState → IState → Prop where
  | valves (arg : VArg) (s : IState) : Step cfg s (valves_control arg s).2
  | machine (arg : Option Bool) (s : IState) :
      Step cfg s (machine_control cfg arg s).2
  | send (sigs : List String) (t : Option ℚ) (s : IState) :
      Step cfg s (send_signals cfg sigs t s).2
  | pump (arg : Option Bool) (s : IState) : Step cfg s (pump_control cfg arg s).2
  | justify (g : Bool) (w5 w75 : Option Nat) (s : IState) :
      Step cfg s (justification cfg g w5 w75 s).2
  | opmode (m : Option String) (s : IState) :
      Step cfg s (setOperationMode cfg m s).2
  | row16 (m : Option String) (s : IState) :
      Step cfg s (setRow16Mode cfg m s).2
  | motor (arg : Option Bool) (s : IState) : Step cfg s (motor_control arg s).2
  | air (arg : Option Bool) (s : IState) : Step cfg s (air_control arg s).2
  | water (arg : Option Bool) (s : IState) : Step cfg s (water_control arg s).2
  | sensorEv (level : Bool) (t : ℚ) (s : IState) : Step cfg s (sensorEvent level t s)

/-- The states an `Interface` with configuration `cfg` can reach from
construction through any sequence of public operations. -/
inductive Reachable (cfg : Config) : IState → Prop where
  | init : Reachable cfg (initState cfg)
  | step {s s' : IState} : Reachable cfg s → Step cfg s s' → Reachable cfg s'

/-- Both justification wedges lie in 1..15. -/
def WedgeInv (s : IState) : Prop :=
  (1 ≤ s.wedge_0005 ∧ s.wedge_0005 ≤ 15) ∧ (1 ≤ s.wedge_0075 ∧ s.wedge_0075 ≤ 15)

theorem minRowOr15_bounds (sigs : List String) :
    1 ≤ minRowOr15 sigs ∧ minRowOr15 sigs ≤ 15 := by
  unfold minRowOr15
  cases h : (List.range' 1 14).find? (fun pos => toString pos ∈ sigs) with
  | none => simp [h]
  | some pos =>
    simp only [h]
    have hmem : pos ∈ List.range' 1 14 := List.mem_of_find?_eq_some h
    rw [List.mem_range'_1] at hmem
    omega

theorem wedgeInv_update (s : IState) (h : WedgeInv s) :
    WedgeInv (update_pump_and_wedges s) := by
  obtain ⟨h5, h75⟩ := h
  constructor
  · unfold update_pump_and_wedges wedge0005FromSignals
    dsimp only
    split
    · exact minRowOr15_bounds s.signals
    · exact h5
  · unfold update_pump_and_wedges wedge0075FromSignals
    dsimp only
    split
    · exact minRowOr15_bounds s.signals
    · exact h75

theorem wedgeInv_bindR {α β : Type} {r : Res α} {f : α → IState → Res β}
    (hr : WedgeInv r.2) (hf : ∀ a s, WedgeInv s → WedgeInv (f a s).2) :
    WedgeInv (bindR r f).2 := by
  obtain ⟨x, s⟩ := r
  cases x with
  | ok a => exact hf a s hr
  | error e => simpa [bindR] using hr

theorem wedgeInv_valves (arg : VArg) (s : IState) (h : WedgeInv s) :
    WedgeInv (valves_control arg s).2 := by
  cases arg with
  | sigs v =>
    unfold valves_control
    dsimp only
    split
    · exact wedgeInv_update _ h
    · exact h
  | off => exact h
  | none => exact h

theorem wedgeInv_setOperationMode (cfg : Config) (m : Option String) (s : IState)
    (h : WedgeInv s) : WedgeInv (setOperationMode cfg m s).2 := by
  unfold setOperationMode
  split
  · exact h
  · split
    · exact h
    · split
      · exact h
      · exact h

theorem wedgeInv_setRow16Mode (cfg : Config) (m : Option String) (s : IState)
    (h : WedgeInv s) : WedgeInv (setRow16Mode cfg m s).2 := by
  unfold setRow16Mode
  split
  · exact h
  · split
    · exact h
    · split
      · split
        · exact h
        · exact h
      · split
        · exact h
        · exact h

theorem wedgeInv_castOp (cfg : Config) (input : List String) (s : IState)
    (h : WedgeInv s) : WedgeInv (castOp cfg input s).2 := by
  unfold castOp
  exact wedgeInv_bindR (wedgeInv_setOperationMode cfg _ s h) (fun _ s1 h1 =>
    wedgeInv_bindR (wedgeInv_valves _ s1 h1) (fun _ s2 h2 =>
      wedgeInv_bindR (wedgeInv_valves _ s2 h2) (fun _ _ h3 => h3)))

theorem wedgeInv_punch (cfg : Config) (input : List String) (s : IState)
    (h : WedgeInv s) : WedgeInv (punch cfg input s).2 := by
  unfold punch
  exact wedgeInv_bindR (wedgeInv_setOperationMode cfg _ s h) (fun _ s1 h1 =>
    wedgeInv_bindR (wedgeInv_valves _ s1 h1) (fun _ s2 h2 =>
      wedgeInv_bindR (wedgeInv_valves _ s2 h2) (fun _ _ h3 => h3)))

theorem wedgeInv_test (cfg : Config) (input : List String) (s : IState)
    (h : WedgeInv s) : WedgeInv (test cfg input s).2 := by
  unfold test
  exact wedgeInv_bindR (wedgeInv_setOperationMode cfg _ s h) (fun _ s1 h1 =>
    wedgeInv_bindR (wedgeInv_valves _ s1 h1) (fun _ s2 h2 =>
      wedgeInv_bindR (wedgeInv_valves _ s2 h2) (fun _ _ h3 => h3)))

theorem wedgeInv_send_signals (cfg : Config) (sigs : List String) (t : Option ℚ)
    (s : IState) (h : WedgeInv s) : WedgeInv (send_signals cfg sigs t s).2 := by
  unfold send_signals
  split
  · dsimp only
    split
    · exact wedgeInv_castOp cfg sigs _ h
    · split
      · exact wedgeInv_punch cfg sigs _ h
      · split
        · exact wedgeInv_test cfg sigs _ h
        · exact h
  · exact h

theorem wedgeInv_pumpStopLoop (cfg : Config) (code : List String) :
    ∀ fuel s, WedgeInv s → WedgeInv (pumpStopLoop cfg code fuel s).2 := by
  intro fuel
  induction fuel with
  | zero => intro s h; exact h
  | succ n ih =>
    intro s h
    unfold pumpStopLoop
    split
    · exact wedgeInv_bindR (wedgeInv_send_signals cfg code _ s h) (fun _ s1 h1 =>
        wedgeInv_bindR (wedgeInv_send_signals cfg code _ s1 h1) (fun _ s2 h2 =>
          ih s2 h2))
    · exact h

theorem wedgeInv_pump_control (cfg : Config) (arg : Option Bool) (s : IState)
    (h : WedgeInv s) : WedgeInv (pump_control cfg arg s).2 := by
  unfold pump_control
  match arg with
  | none => exact h
  | some true =>
    exact wedgeInv_bindR (wedgeInv_send_signals cfg _ _ s h) (fun _ _ h1 => h1)
  | some false =>
    dsimp only
    split
    · split <;>
        exact wedgeInv_bindR (wedgeInv_pumpStopLoop cfg _ 100 _ h)
          (fun _ s3 h3 => h3)
    · exact h

theorem wedgeInv_justification (cfg : Config) (g : Bool) (w5 w75 : Option Nat)
    (s : IState) (h : WedgeInv s) : WedgeInv (justification cfg g w5 w75 s).2 := by
  unfold justification
  dsimp only
  split
  · split <;>
      exact wedgeInv_bindR (wedgeInv_send_signals cfg _ _ s h) (fun _ s1 h1 =>
        wedgeInv_bindR (wedgeInv_send_signals cfg _ _ s1 h1) (fun _ _ h2 => h2))
  · split
    · exact h
    · split <;>
        exact wedgeInv_bindR (wedgeInv_send_signals cfg _ _ s h) (fun _ s1 h1 =>
          wedgeInv_bindR (wedgeInv_send_signals cfg _ _ s1 h1) (fun _ _ h2 => h2))

theorem wedgeInv_motor (arg : Option Bool) (s : IState) (h : WedgeInv s) :
    WedgeInv (motor_control arg s).2 := by
  unfold motor_control
  match arg with
  | none => exact h
  | some true => exact h
  | some false => exact h

theorem wedgeInv_air (arg : Option Bool) (s : IState) (h : WedgeInv s) :
    WedgeInv (air_control arg s).2 := by
  unfold air_control
  match arg with
  | none => exact h
  | some true => exact h
  | some false => exact h

theorem wedgeInv_water (arg : Option Bool) (s : IState) (h : WedgeInv s) :
    WedgeInv (water_control arg s).2 := by
  unfold water_control
  match arg with
  | none => exact h
  | some true => exact h
  | some false => exact h

theorem wedgeInv_machine_control (cfg : Config) (arg : Option Bool) (s : IState)
    (h : WedgeInv s) : WedgeInv (machine_control cfg arg s).2 := by
  unfold machine_control
  match arg with
  | none => exact h
  | some true =>
    dsimp only
    split
    · exact h
    · exact wedgeInv_bindR (wedgeInv_air _ _ h) (fun _ s2 h2 =>
        wedgeInv_bindR (by
          split
          · exact wedgeInv_bindR (wedgeInv_water _ s2 h2) (fun _ s3 h3 =>
              wedgeInv_bindR (wedgeInv_motor _ s3 h3) (fun _ _ h4 => h4))
          · exact h2)
          (fun _ _ h5 => h5))
  | some false =>
    dsimp only
    split
    · exact wedgeInv_bindR (wedgeInv_pump_control cfg _ s h) (fun _ s1 h1 =>
        wedgeInv_bindR (wedgeInv_valves _ s1 h1) (fun _ s2 h2 =>
          wedgeInv_bindR (by
            split
            · exact wedgeInv_bindR (wedgeInv_motor _ _ h2) (fun _ s4 h4 =>
                wedgeInv_bindR (wedgeInv_water _ s4 h4) (fun _ _ h5 => h5))
            · exact h2)
            (fun _ s6 h6 =>
              wedgeInv_bindR (wedgeInv_air _ s6 h6) (fun _ _ h7 => h7))))
    · exact h

theorem wedgeInv_sensorEvent (level : Bool) (t : ℚ) (s : IState)
    (h : WedgeInv s) : WedgeInv (sensorEvent level t s) := by
  unfold sensorEvent
  split <;> exact h

theorem wedgeInv_step {cfg : Config} {s s' : IState} (st : Step cfg s s')
    (h : WedgeInv s) : WedgeInv s' := by
  cases st with
  | valves arg s => exact wedgeInv_valves arg s h
  | machine arg s => exact wedgeInv_machine_control cfg arg s h
  | send sigs t s => exact wedgeInv_send_signals cfg sigs t s h
  | pump arg s => exact wedgeInv_pump_control cfg arg s h
  | justify g w5 w75 s => exact wedgeInv_justification cfg g w5 w75 s h
  | opmode m s => exact wedgeInv_setOperationMode cfg m s h
  | row16 m s => exact wedgeInv_setRow16Mode cfg m s h
  | motor arg s => exact wedgeInv_motor arg s h
  | air arg s => exact wedgeInv_air arg s h
  | water arg s => exact wedgeInv_water arg s h
  | sensorEv level t s => exact wedgeInv_sensorEvent level t s h

theorem wedgeInv_reachable {cfg : Config} {s : IState} (h : Reachable cfg s) :
    WedgeInv s := by
  induction h with
  | init => refine ⟨⟨?_, ?_⟩, ?_, ?_⟩ <;> norm_num [initState]
  | step _ st ih => exact wedgeInv_step st ih

/-! ## Run lemmas: symbolic executions of the methods -/

/-- Accepting a non-empty signal set: the driver is called with the set, the
pump/wedge inference runs on the *previously stored* `signals` list, and only
then is `signals` replaced by the ordered form of the argument. -/
theorem valves_control_on (s : IState) (v : Finset String) (h : v.Nonempty) :
    valves_control (VArg.sigs v) s =
      (Except.ok (ordered_signals v),
       { s with
         pump := pumpFromSignals s.signals s.pump,
         wedge_0075 := wedge0075FromSignals s.signals s.wedge_0075,
         wedge_0005 := wedge0005FromSignals s.signals s.wedge_0005,
         signals := ordered_signals v,
         valveLog := s.valveLog ++ [ValveEvent.on v] }) := by
  unfold valves_control
  dsimp only
  rw [if_pos h]
  rfl

theorem valves_control_off (s : IState) :
    valves_control VArg.off s =
      (Except.ok s.signals, { s with valveLog := s.valveLog ++ [ValveEvent.off] }) := rfl

/-- A full run of `punch` when the row-16 mode is off, punching is a supported
mode and the prepared combination is non-empty. -/
theorem punch_run (cfg : Config) (input : List String) (st : IState)
    (hsup : "punching" ∈ cfg.supported_modes) (hr16 : st.row16_mode = none) :
    (prepareSignals OpMode3.punching none input).Nonempty →
    punch cfg input st =
      (Except.ok (),
       { st with
         operation_mode := some "punching",
         pump := pumpFromSignals st.signals st.pump,
         wedge_0075 := wedge0075FromSignals st.signals st.wedge_0075,
         wedge_0005 := wedge0005FromSignals st.signals st.wedge_0005,
         signals := ordered_signals (prepareSignals OpMode3.punching none input),
         valveLog := st.valveLog ++
           [ValveEvent.on (prepareSignals OpMode3.punching none input), ValveEvent.off] }) := by
  intro hne
  unfold punch setOperationMode
  dsimp only
  rw [if_neg (by decide), if_neg (by decide)]
  dsimp only [Option.getD]
  rw [if_pos hsup]
  unfold bindR
  dsimp only
  rw [hr16, valves_control_on _ _ hne]
  dsimp only
  rw [valves_control_off]
  dsimp only
  simp [List.append_assoc]

/-- A full run of `send_signals` on a working interface in punching mode. -/
theorem send_signals_punching (cfg : Config) (input : List String) (t : Option ℚ)
    (st : IState) (hw : st.working = true) (hm : st.operation_mode = some "punching")
    (hsup : "punching" ∈ cfg.supported_modes) (hr16 : st.row16_mode = none)
    (hne : (prepareSignals OpMode3.punching none input).Nonempty) :
    send_signals cfg input t st =
      (Except.ok (),
       { st with
         sent := st.sent ++ [(input, t)],
         operation_mode := some "punching",
         pump := pumpFromSignals st.signals st.pump,
         wedge_0075 := wedge0075FromSignals st.signals st.wedge_0075,
         wedge_0005 := wedge0005FromSignals st.signals st.wedge_0005,
         signals := ordered_signals (prepareSignals OpMode3.punching none input),
         valveLog := st.valveLog ++
           [ValveEvent.on (prepareSignals OpMode3.punching none input), ValveEvent.off] }) := by
  unfold send_signals
  rw [hw]
  dsimp only
  rw [if_pos rfl, hm, if_neg (by decide), if_pos rfl]
  exact punch_run cfg input _ hsup hr16 hne

/-- The pump stop combination of `pump_control` (any wedge position 1..15):
its prepared form is non-empty, and a set of signals containing it always
switches the inferred pump state off (it contains `N`, `J` and `0005`, and
never `0075` or `K`). -/
theorem stop_code_prepared (w : Nat) (h1 : 1 ≤ w) (h15 : w ≤ 15) :
    (prepareSignals OpMode3.punching none ["N", "J", "S", "0005", toString w]).Nonempty ∧
    (∀ b : Bool, pumpFromSignals (ordered_signals (prepareSignals OpMode3.punching none
      ["N", "J", "S", "0005", toString w])) b = false) := by
  interval_cases w <;> exact ⟨by decide, fun b => rfl⟩

theorem pumpStopLoop_succ (cfg : Config) (code : List String) (fuel : Nat) (s : IState) :
    pumpStopLoop cfg code (fuel + 1) s =
      if s.pump then
        bindR (send_signals cfg code (some cfg.pump_stop_timeout) s) (fun _ s1 =>
          bindR (send_signals cfg code (some cfg.pump_stop_timeout) s1) (fun _ s2 =>
            pumpStopLoop cfg code fuel s2))
      else (Except.ok (), s) := rfl

/-- In punching mode the `while` loop of `pump_control`'s `stop()` terminates
after exactly one iteration, i.e. exactly two sends: the second send's
pump/wedge inference reads the stop combination stored by the first send and
switches the pump off. -/
theorem pumpStopLoop_punching (cfg : Config) (w : Nat) (fuel : Nat) (s : IState)
    (hw : s.working = true) (hm : s.operation_mode = some "punching")
    (hsup : "punching" ∈ cfg.supported_modes) (hr16 : s.row16_mode = none)
    (h1 : 1 ≤ w) (h15 : w ≤ 15) (hp : s.pump = true) :
    pumpStopLoop cfg ["N", "J", "S", "0005", toString w] (fuel + 2) s =
      (Except.ok (),
       { s with
         operation_mode := some "punching",
         pump := false,
         wedge_0075 := wedge0075FromSignals
           (ordered_signals (prepareSignals OpMode3.punching none
             ["N", "J", "S", "0005", toString w]))
           (wedge0075FromSignals s.signals s.wedge_0075),
         wedge_0005 := wedge0005FromSignals
           (ordered_signals (prepareSignals OpMode3.punching none
             ["N", "J", "S", "0005", toString w]))
           (wedge0005FromSignals s.signals s.wedge_0005),
         signals := ordered_signals (prepareSignals OpMode3.punching none
           ["N", "J", "S", "0005", toString w]),
         valveLog := s.valveLog ++
           [ValveEvent.on (prepareSignals OpMode3.punching none
              ["N", "J", "S", "0005", toString w]), ValveEvent.off,
            ValveEvent.on (prepareSignals OpMode3.punching none
              ["N", "J", "S", "0005", toString w]), ValveEvent.off],
         sent := s.sent ++
           [(["N", "J", "S", "0005", toString w], some cfg.pump_stop_timeout),
            (["N", "J", "S", "0005", toString w], some cfg.pump_stop_timeout)] }) := by
  obtain ⟨hne, hoff⟩ := stop_code_prepared w h1 h15
  have e1 := send_signals_punching cfg ["N", "J", "S", "0005", toString w]
      (some cfg.pump_stop_timeout) s hw hm hsup hr16 hne
  have e2 := send_signals_punching cfg ["N", "J", "S", "0005", toString w]
      (some cfg.pump_stop_timeout)
      { s with
        sent := s.sent ++
          [(["N", "J", "S", "0005", toString w], some cfg.pump_stop_timeout)],
        operation_mode := some "punching",
        pump := pumpFromSignals s.signals s.pump,
        wedge_0075 := wedge0075FromSignals s.signals s.wedge_0075,
        wedge_0005 := wedge0005FromSignals s.signals s.wedge_0005,
        signals := ordered_signals (prepareSignals OpMode3.punching none
          ["N", "J", "S", "0005", toString w]),
        valveLog := s.valveLog ++
          [ValveEvent.on (prepareSignals OpMode3.punching none
            ["N", "J", "S", "0005", toString w]), ValveEvent.off] }
      hw rfl hsup hr16 hne
  rw [pumpStopLoop_succ, if_pos hp, e1]
  dsimp only [bindR]
  rw [e2]
  dsimp only [bindR]
  rw [pumpStopLoop_succ, if_neg (by simp [hoff])]
  simp [hoff, List.append_assoc]

/-- Full observable behaviour of `pump_control(OFF)` on a working punching
interface whose pump is inferred on. -/
theorem pump_control_stop_run (cfg : Config) (s : IState)
    (hw : s.working = true) (hm : s.operation_mode = some "punching")
    (hsup : "punching" ∈ cfg.supported_modes) (hr16 : s.row16_mode = none)
    (h1 : 1 ≤ s.wedge_0005) (h15 : s.wedge_0005 ≤ 15) (hp : s.pump = true) :
    (pump_control cfg (some false) s).1 = Except.ok false ∧
    (pump_control cfg (some false) s).2.pump = false ∧
    (pump_control cfg (some false) s).2.error_led = false ∧
    (pump_control cfg (some false) s).2.working_led = s.working_led ∧
    (pump_control cfg (some false) s).2.sent = s.sent ++
      [(["N", "J", "S", "0005", toString s.wedge_0005], some cfg.pump_stop_timeout),
       (["N", "J", "S", "0005", toString s.wedge_0005], some cfg.pump_stop_timeout)] := by
  have h100 : (100 : Nat) = 98 + 2 := rfl
  unfold pump_control
  dsimp only
  rw [if_pos hp]
  by_cases hled : s.working_led = true
  · rw [if_pos hled, h100]
    rw [pumpStopLoop_punching cfg s.wedge_0005 98
      { s with working_led := false, error_led := true }
      hw hm hsup hr16 h1 h15 hp]
    dsimp only [bindR]
    rw [if_pos hled]
    simp [hled]
  · rw [if_neg hled, h100]
    rw [pumpStopLoop_punching cfg s.wedge_0005 98
      { s with error_led := true }
      hw hm hsup hr16 h1 h15 hp]
    dsimp only [bindR]
    rw [if_neg hled]
    simp

/-- Whenever the pump stop loop returns normally, the pump is off: the `while`
loop only exits on `pump == false`, whatever the sends do. -/
theorem pumpStopLoop_ok_pump (cfg : Config) (code : List String) :
    ∀ (fuel : Nat) (s : IState) (v : Unit) (s' : IState),
      pumpStopLoop cfg code fuel s = (Except.ok v, s') → s'.pump = false := by
  intro fuel
  induction fuel with
  | zero => intro s v s' h; exact absurd h (by simp [pumpStopLoop])
  | succ n ih =>
    intro s v s' h
    rw [pumpStopLoop_succ] at h
    by_cases hp : s.pump = true
    · rw [if_pos hp] at h
      rcases e1 : send_signals cfg code (some cfg.pump_stop_timeout) s with ⟨r1, s1⟩
      rw [e1] at h
      cases r1 with
      | error e => simp [bindR] at h
      | ok a =>
        dsimp only [bindR] at h
        rcases e2 : send_signals cfg code (some cfg.pump_stop_timeout) s1 with ⟨r2, s2⟩
        rw [e2] at h
        cases r2 with
        | error e => simp [bindR] at h
        | ok b => exact ih s2 v s' h
    · rw [if_neg hp] at h
      simp only [Prod.mk.injEq] at h
      rw [← h.2]
      simpa using hp

/-- Whenever `pump_control(OFF)` returns normally, the pump is off. -/
theorem pump_control_off_ok_pump (cfg : Config) (s : IState) (v : Bool) (s' : IState)
    (h : pump_control cfg (some false) s = (Except.ok v, s')) : s'.pump = false := by
  unfold pump_control at h
  dsimp only at h
  by_cases hp : s.pump = true
  · rw [if_pos hp] at h
    rcases el : pumpStopLoop cfg ["N", "J", "S", "0005", toString s.wedge_0005] 100
        (if s.working_led = true
          then { s with working_led := false, error_led := true }
          else { s with error_led := true }) with ⟨rl, sl⟩
    by_cases hled : s.working_led = true
    · rw [if_pos hled] at h
      rw [if_pos hled] at el
      rw [el] at h
      cases rl with
      | error e => simp [bindR] at h
      | ok u =>
        dsimp only [bindR] at h
        simp only [Prod.mk.injEq] at h
        rw [← h.2, if_pos hled]
        have := pumpStopLoop_ok_pump cfg _ 100 _ u sl el
        simpa using this
    · rw [if_neg hled] at h
      rw [if_neg hled] at el
      rw [el] at h
      cases rl with
      | error e => simp [bindR] at h
      | ok u =>
        dsimp only [bindR] at h
        simp only [Prod.mk.injEq] at h
        rw [← h.2, if_neg hled]
        have := pumpStopLoop_ok_pump cfg _ 100 _ u sl el
        simpa using this
  · rw [if_neg hp] at h
    simp only [Prod.mk.injEq] at h
    rw [← h.2]
    simpa using hp

/-! ## Characterization of the `wait_for_sensor` loop -/

/-- If the sensor first reaches the desired level at tick `j ≤ T`, the loop
returns normally at tick `j` (given enough fuel). -/
theorem waitLoop_ok_char (sensor : Nat → Bool) (desired : Bool) (T : Nat) :
    ∀ (fuel k j : Nat), k ≤ j → j ≤ T → sensor j = desired →
      (∀ i, k ≤ i → i < j → sensor i ≠ desired) → j - k < fuel →
      waitLoop sensor desired T k fuel = WaitRes.ok j := by
  intro fuel
  induction fuel with
  | zero => intro k j _ _ _ _ hf; omega
  | succ n ih =>
    intro k j hkj hjT hj hpre hf
    unfold waitLoop
    by_cases hk : sensor k = desired
    · have hkeq : k = j := by
        by_contra hne
        exact hpre k le_rfl (lt_of_le_of_ne hkj hne) hk
      rw [if_pos hk, hkeq]
    · rw [if_neg hk]
      have hklt : k < j := lt_of_le_of_ne hkj (fun he => hk (he ▸ hj))
      rw [if_neg (by omega : ¬ T < k)]
      exact ih (k + 1) j (by omega) hjT hj (fun i h1 h2 => hpre i (by omega) h2) (by omega)

/-- If the sensor never reaches the desired level, the loop raises at tick
`T + 1`, the first tick whose elapsed time exceeds the timeout. -/
theorem waitLoop_timeout_char (sensor : Nat → Bool) (desired : Bool) (T : Nat) :
    ∀ (fuel k : Nat), k ≤ T + 1 → (∀ i, k ≤ i → i ≤ T + 1 → sensor i ≠ desired) →
      (T + 1) - k < fuel →
      waitLoop sensor desired T k fuel = WaitRes.stopped (T + 1) := by
  intro fuel
  induction fuel with
  | zero => intro k _ _ hf; omega
  | succ n ih =>
    intro k hk hall hf
    unfold waitLoop
    rw [if_neg (hall k le_rfl hk)]
    by_cases hTk : T < k
    · have hkeq : k = T + 1 := by omega
      rw [if_pos hTk, hkeq]
    · rw [if_neg hTk]
      exact ih (k + 1) (by omega) (fun i h1 h2 => hall i (by omega) h2) (by omega)

/-! ## The claims -/

/-- Follows the spec's words for claim C1 (§4.5 `valves_control`, §5 ordering
guarantees): the pump and wedge state is derived from the signal set *just
accepted* by `valves_on` — i.e. the argument of the call — rather than from
whatever `self.signals` held before the call. -/
def update_pump_and_wedges_claimC1 (accepted : Finset String) (s : IState) : IState :=
  let fnd := fun (code : List String) => code.all (fun c => decide (c ∈ accepted))
  let minRow := match (List.range' 1 14).find?
      (fun pos => decide (toString pos ∈ accepted)) with
    | some pos => pos
    | none => 15
  { s with
    pump := if fnd ["0075"] || fnd ["N", "K"] then true
      else if fnd ["0005"] || fnd ["N", "J"] then false
      else s.pump
    wedge_0075 := if fnd ["0075"] || fnd ["N", "K"] then minRow else s.wedge_0075
    wedge_0005 := if fnd ["0005"] || fnd ["N", "J"] then minRow else s.wedge_0005 }

/-- C1, counterexample.  From the freshly constructed interface (stored
`signals` empty, pump off), `valves_control({"0075"})` accepts the set
`{"0075"}`: the claim's reading — pump/wedge state derived from the
just-accepted set — makes the pump on (second conjunct), but the code leaves
it off (first conjunct), because `update_pump_and_wedges` runs before
`self.signals` is reassigned and therefore reads the *previous*, still empty,
signal list. -/
theorem C1_counterexample :
    (valves_control (VArg.sigs {"0075"}) (initState defaultConfig)).2.pump = false ∧
    (update_pump_and_wedges_claimC1 {"0075"} (initState defaultConfig)).pump = true := by
  decide

/-- C1, amended: for every non-empty signal set passed to `valves_control`,
`valves_on` is called first, the derived pump/wedge state is then computed
from the *previously stored* `signals` list (the set accepted by the previous
acceptance) — not from the just-accepted set — and only then is `signals`
stored as the ordered form of the argument.  In particular (second conjunct)
the just-accepted set has no influence on the updated pump state. -/
theorem C1_amended (s : IState) (v : Finset String) (h : v.Nonempty) :
    valves_control (VArg.sigs v) s =
      (Except.ok (ordered_signals v),
       { s with
         pump := pumpFromSignals s.signals s.pump,
         wedge_0075 := wedge0075FromSignals s.signals s.wedge_0075,
         wedge_0005 := wedge0005FromSignals s.signals s.wedge_0005,
         signals := ordered_signals v,
         valveLog := s.valveLog ++ [ValveEvent.on v] }) ∧
    (∀ w : Finset String, w.Nonempty →
      (valves_control (VArg.sigs w) s).2.pump =
        (valves_control (VArg.sigs v) s).2.pump) := by
  refine ⟨valves_control_on s v h, fun w hw => ?_⟩
  rw [valves_control_on s v h, valves_control_on s w hw]

/-- C1, witness: the amended theorem evaluated on the fresh interface and the
set `{"0075"}`. -/
theorem C1_amended_witness :
    valves_control (VArg.sigs {"0075"}) (initState defaultConfig) =
      (Except.ok ["0075"],
       { initState defaultConfig with
         signals := ["0075"], valveLog := [ValveEvent.on {"0075"}] }) := by
  rw [(C1_amended (initState defaultConfig) {"0075"} (by decide)).1]
  decide

/-- C2: in punching mode with row-16 mode off, `send_signals(["A"])` does
*not* hand the driver `{"A", "O15"}`.  `add_missing_o15` executes
`source_signals.update('O15')`, and Python's `set.update` iterates the string
`'O15'`, adding the three separate signals `"O"`, `"1"`, `"5"`: the driver
receives `valves_on({"A", "O", "1", "5"})` (third conjunct shows the actual
driver call sequence of the punch cycle), and the combined `"O15"` signal —
the paper-advance valve named in the `DEFAULTS` valve4 tuple, which the
docstring says should engage — is never actuated (second conjunct).  This
contradicts the function's own docstring ("add an O+15 so that when punching,
the ribbon will be advanced properly"), so the claim is right and the code is
wrong. -/
theorem C2_code_behaviour :
    prepareSignals OpMode3.punching none ["A"] = ({"A", "O", "1", "5"} : Finset String) ∧
    "O15" ∉ prepareSignals OpMode3.punching none ["A"] ∧
    (send_signals defaultConfig ["A"] none
      { initState defaultConfig with
        working := true, operation_mode := some "punching" }).2.valveLog =
      [ValveEvent.on {"A", "O", "1", "5"}, ValveEvent.off] := by
  refine ⟨by decide, by decide, ?_⟩
  rw [send_signals_punching defaultConfig ["A"] none _ rfl rfl (by decide) rfl (by decide),
    show prepareSignals OpMode3.punching none ["A"] = ({"A", "O", "1", "5"} : Finset String)
      from by decide]
  decide

/-- C3, counterexample.  Sensor trace: desired level first reached at tick 3;
timeout 10 ticks; no edge pending at entry; an emergency-stop edge is latched
at tick 1, during the wait.  The claim (per-iteration polling, no further
iterations once latched) demands machine-stopped after 1 iteration — the
claim-following model stops at tick 1 — but the code's loop never polls the
latch: it completes iterations 2 and 3, and machine-stopped is raised only by
the decorator's exit poll, after 3 iterations. -/
theorem C3_counterexample :
    wait_for_sensor_model (fun k => decide (3 ≤ k)) true 10 false (some 1) =
      WaitRes.stopped 3 ∧
    wait_for_sensor_claimC3 (fun k => decide (3 ≤ k)) true 10 false (some 1) =
      WaitRes.stopped 1 := by
  decide

/-- C3, amended: `handle_machine_stop` polls the latched emergency-stop edge
once before the loop and once after it; the loop itself polls only the sensor.
Hence (i) an edge already latched at entry raises machine-stopped immediately,
with zero wait iterations; (ii) when the sensor first reaches the desired
level at tick `k ≤ T`, the loop always completes all `k` iterations, and
machine-stopped is raised afterwards exactly when an edge was latched at some
tick `d ≤ k`; (iii) when the sensor never cooperates, the loop raises
machine-stopped at tick `T + 1`, edge or no edge. -/
theorem C3_amended (sensor : Nat → Bool) (desired : Bool) (T : Nat)
    (pend : Bool) (edge : Option Nat) :
    (pend = true → wait_for_sensor_model sensor desired T pend edge = WaitRes.stopped 0) ∧
    (pend = false → ∀ k, k ≤ T → sensor k = desired →
      (∀ i, i < k → sensor i ≠ desired) →
      wait_for_sensor_model sensor desired T pend edge =
        (if edgeBy edge k then WaitRes.stopped k else WaitRes.ok k)) ∧
    (pend = false → (∀ i, i ≤ T + 1 → sensor i ≠ desired) →
      wait_for_sensor_model sensor desired T pend edge = WaitRes.stopped (T + 1)) := by
  refine ⟨?_, ?_, ?_⟩
  · intro hp
    unfold wait_for_sensor_model
    rw [if_pos hp]
  · intro hp k hkT hk hpre
    unfold wait_for_sensor_model
    rw [if_neg (by simp [hp]),
      waitLoop_ok_char sensor desired T (T + 2) 0 k (Nat.zero_le k) hkT hk
        (fun i _ h2 => hpre i h2) (by omega)]
  · intro hp hall
    unfold wait_for_sensor_model
    rw [if_neg (by simp [hp]),
      waitLoop_timeout_char sensor desired T (T + 2) 0 (by omega)
        (fun i _ h2 => hall i h2) (by omega)]

/-- C3, witness: the amended theorem evaluated on a trace whose sensor first
matches at tick 2, with no emergency-stop edge: the wait returns normally
after 2 iterations. -/
theorem C3_amended_witness :
    wait_for_sensor_model (fun k => decide (2 ≤ k)) true 5 false none = WaitRes.ok 2 := by
  have h := (C3_amended (fun k => decide (2 ≤ k)) true 5 false none).2.1 rfl 2
    (by norm_num) (by decide)
    (fun i hi => by intro hcontra; simp only [decide_eq_true_eq] at hcontra; omega)
  simpa [edgeBy] using h

/-- C4: on a working punching interface, `pump_control(OFF)` with the pump
inferred on sends the stop combination `["N","J","S","0005", str(wedge_0005)]`
exactly twice (two sends in the single outer loop iteration needed, i.e. at
least twice), each with `pump_stop_timeout`, until `pump == false`; on return
the error LED is off and the working LED is restored to its pre-call state.
With the pump already off it returns immediately with the state — LEDs
included — untouched. -/
theorem C4_pump_control_off (cfg : Config) (s : IState)
    (hw : s.working = true) (hm : s.operation_mode = some "punching")
    (hsup : "punching" ∈ cfg.supported_modes) (hr16 : s.row16_mode = none)
    (h1 : 1 ≤ s.wedge_0005) (h15 : s.wedge_0005 ≤ 15) :
    (s.pump = true →
      (pump_control cfg (some false) s).1 = Except.ok false ∧
      (pump_control cfg (some false) s).2.pump = false ∧
      (pump_control cfg (some false) s).2.error_led = false ∧
      (pump_control cfg (some false) s).2.working_led = s.working_led ∧
      (pump_control cfg (some false) s).2.sent = s.sent ++
        [(["N", "J", "S", "0005", toString s.wedge_0005], some cfg.pump_stop_timeout),
         (["N", "J", "S", "0005", toString s.wedge_0005], some cfg.pump_stop_timeout)]) ∧
    (s.pump = false → pump_control cfg (some false) s = (Except.ok false, s)) := by
  constructor
  · intro hp
    exact pump_control_stop_run cfg s hw hm hsup hr16 h1 h15 hp
  · intro hp
    unfold pump_control
    dsimp only
    rw [if_neg (by simp [hp]), hp]

/-- C4, witness: the theorem evaluated on a working punching interface with
the pump on, the working LED on and the wedge at its initial 15. -/
theorem C4_pump_control_off_witness :
    (pump_control defaultConfig (some false)
      { initState defaultConfig with
        working := true, working_led := true,
        operation_mode := some "punching", pump := true }).1 = Except.ok false ∧
    (pump_control defaultConfig (some false)
      { initState defaultConfig with
        working := true, working_led := true,
        operation_mode := some "punching", pump := true }).2.pump = false ∧
    (pump_control defaultConfig (some false)
      { initState defaultConfig with
        working := true, working_led := true,
        operation_mode := some "punching", pump := true }).2.error_led = false ∧
    (pump_control defaultConfig (some false)
      { initState defaultConfig with
        working := true, working_led := true,
        operation_mode := some "punching", pump := true }).2.working_led = true ∧
    (pump_control defaultConfig (some false)
      { initState defaultConfig with
        working := true, working_led := true,
        operation_mode := some "punching", pump := true }).2.sent =
      [(["N", "J", "S", "0005", "15"], some 120),
       (["N", "J", "S", "0005", "15"], some 120)] :=
  (C4_pump_control_off defaultConfig
    { initState defaultConfig with
      working := true, working_led := true,
      operation_mode := some "punching", pump := true }
    rfl rfl (by decide) rfl (by decide) (by decide)).1 rfl

/-- C5, counterexample.  State: working punching interface, pump on,
wedge_0005 = 8, wedge_0075 = 3, no stored signals.
`justification(galley_trip=true, wedge_0005=12, wedge_0075=4)` does send
exactly the two claimed combinations in order (first conjunct), but the final
state has wedge_0075 = 12, not 4 as the claim demands (second and third
conjuncts): the second combination's inference runs on the signals stored by
the *first* combination (N,K,J,S,0075,0005,12 — row 12), and the "4" it sends
is only seen by the inference of the next acceptance. -/
theorem C5_counterexample :
    (justification defaultConfig true (some 12) (some 4)
      { initState defaultConfig with
        working := true, operation_mode := some "punching",
        pump := true, wedge_0005 := 8, wedge_0075 := 3 }).2.sent =
      [(["N", "K", "J", "S", "0075", "0005", "12"], none),
       (["N", "K", "S", "0075", "4"], none)] ∧
    (justification defaultConfig true (some 12) (some 4)
      { initState defaultConfig with
        working := true, operation_mode := some "punching",
        pump := true, wedge_0005 := 8, wedge_0075 := 3 }).2.wedge_0075 = 12 ∧
    (justification defaultConfig true (some 12) (some 4)
      { initState defaultConfig with
        working := true, operation_mode := some "punching",
        pump := true, wedge_0005 := 8, wedge_0075 := 3 }).2.wedge_0075 ≠ 4 := by
  refine ⟨by decide, by decide, by decide⟩

/-- C5, amended: with pump on, wedge_0005 = 8, wedge_0075 = 3 and no stored
signals on a working punching interface,
`justification(galley_trip=true, wedge_0005=12, wedge_0075=4)` returns
normally and sends exactly two combinations in order — first
`["N","K","J","S","0075","0005","12"]`, then `["N","K","S","0075","4"]` — and
afterwards the state holds wedge_0005 = 12 and wedge_0075 = 12 (not 4: the
second combination's row code takes effect only at the next acceptance). -/
theorem C5_amended (cfg : Config) (s : IState)
    (hw : s.working = true) (hm : s.operation_mode = some "punching")
    (hsup : "punching" ∈ cfg.supported_modes) (hr16 : s.row16_mode = none)
    (hp : s.pump = true) (h5 : s.wedge_0005 = 8) (h75 : s.wedge_0075 = 3)
    (hsig : s.signals = []) :
    (justification cfg true (some 12) (some 4) s).1 = Except.ok () ∧
    (justification cfg true (some 12) (some 4) s).2.sent =
      s.sent ++ [(["N", "K", "J", "S", "0075", "0005", "12"], none),
                 (["N", "K", "S", "0075", "4"], none)] ∧
    (justification cfg true (some 12) (some 4) s).2.wedge_0005 = 12 ∧
    (justification cfg true (some 12) (some 4) s).2.wedge_0075 = 12 := by
  have e1 := send_signals_punching cfg ["N", "K", "J", "S", "0075", "0005", toString 12]
      none s hw hm hsup hr16 (by decide)
  have e2 := send_signals_punching cfg ["N", "K", "S", "0075", toString 4] none
      { s with
        sent := s.sent ++ [(["N", "K", "J", "S", "0075", "0005", toString 12], none)],
        operation_mode := some "punching",
        pump := pumpFromSignals s.signals s.pump,
        wedge_0075 := wedge0075FromSignals s.signals s.wedge_0075,
        wedge_0005 := wedge0005FromSignals s.signals s.wedge_0005,
        signals := ordered_signals (prepareSignals OpMode3.punching none
          ["N", "K", "J", "S", "0075", "0005", toString 12]),
        valveLog := s.valveLog ++
          [ValveEvent.on (prepareSignals OpMode3.punching none
            ["N", "K", "J", "S", "0075", "0005", toString 12]), ValveEvent.off] }
      hw rfl hsup hr16 (by decide)
  have w5nil : ∀ x : Nat, wedge0005FromSignals [] x = x := fun x => rfl
  have w75nil : ∀ x : Nat, wedge0075FromSignals [] x = x := fun x => rfl
  have w5L : ∀ x : Nat, wedge0005FromSignals (ordered_signals (prepareSignals
      OpMode3.punching none ["N", "K", "J", "S", "0075", "0005", toString 12])) x = 12 :=
    fun x => rfl
  have w75L : ∀ x : Nat, wedge0075FromSignals (ordered_signals (prepareSignals
      OpMode3.punching none ["N", "K", "J", "S", "0075", "0005", toString 12])) x = 12 :=
    fun x => rfl
  unfold justification
  dsimp only
  rw [if_pos (rfl : true = true)]
  simp only [if_neg (by decide : ¬ (12 : Nat) = 0), if_neg (by decide : ¬ (4 : Nat) = 0)]
  rw [if_pos hp, e1]
  dsimp only [bindR]
  rw [e2]
  dsimp only [bindR]
  refine ⟨rfl, ?_, ?_, ?_⟩
  · have h12 : toString (12 : Nat) = "12" := rfl
    have h4 : toString (4 : Nat) = "4" := rfl
    simp [h12, h4, List.append_assoc]
  · rw [hsig, w5nil, w5L]
  · rw [hsig, w75nil, w75L]

/-- C5, witness: the amended theorem evaluated on the concrete state of the
scenario. -/
theorem C5_amended_witness :
    (justification defaultConfig true (some 12) (some 4)
      { initState defaultConfig with
        working := true, operation_mode := some "punching",
        pump := true, wedge_0005 := 8, wedge_0075 := 3 }).1 = Except.ok () ∧
    (justification defaultConfig true (some 12) (some 4)
      { initState defaultConfig with
        working := true, operation_mode := some "punching",
        pump := true, wedge_0005 := 8, wedge_0075 := 3 }).2.sent =
      [(["N", "K", "J", "S", "0075", "0005", "12"], none),
       (["N", "K", "S", "0075", "4"], none)] ∧
    (justification defaultConfig true (some 12) (some 4)
      { initState defaultConfig with
        working := true, operation_mode := some "punching",
        pump := true, wedge_0005 := 8, wedge_0075 := 3 }).2.wedge_0005 = 12 ∧
    (justification defaultConfig true (some 12) (some 4)
      { initState defaultConfig with
        working := true, operation_mode := some "punching",
        pump := true, wedge_0005 := 8, wedge_0075 := 3 }).2.wedge_0075 = 12 :=
  C5_amended defaultConfig
    { initState defaultConfig with
      working := true, operation_mode := some "punching",
      pump := true, wedge_0005 := 8, wedge_0075 := 3 }
    rfl rfl (by decide) rfl rfl rfl rfl rfl

/-- C6: `machine_control(ON)` on a working interface raises interface-busy
before any mutation — the returned state is exactly the input state, so
working, air, water, motor, pump, the wedges, signals and meter_events are all
unchanged by the failed call. -/
theorem C6_interface_busy (cfg : Config) (s : IState) (h : s.working = true) :
    machine_control cfg (some true) s = (Except.error Err.InterfaceBusy, s) := by
  unfold machine_control
  dsimp only
  rw [if_pos h]

/-- C6, witness: the theorem evaluated on a started interface. -/
theorem C6_interface_busy_witness :
    machine_control defaultConfig (some true)
      { initState defaultConfig with working := true } =
      (Except.error Err.InterfaceBusy,
       { initState defaultConfig with working := true }) :=
  C6_interface_busy defaultConfig { initState defaultConfig with working := true } rfl

/-- C7, counterexample.  `valves_control` does not require the interface to be
working, and the HTTP surface maps it one-to-one (spec §6).  From the fresh
interface, calling `valves_control({"0075"})` twice while not working makes
the inferred pump on and leaves signals stored; `machine_control(OFF)` then
returns normally (first conjunct, via the not-working early return) with
pump still true and signals non-empty — falsifying the claim's unconditional
`pump==false ∧ len(signals)==0` on normal return. -/
theorem C7_counterexample :
    (machine_control defaultConfig (some false)
      (valves_control (VArg.sigs {"0075"})
        (valves_control (VArg.sigs {"0075"}) (initState defaultConfig)).2).2).1
      = Except.ok false ∧
    (machine_control defaultConfig (some false)
      (valves_control (VArg.sigs {"0075"})
        (valves_control (VArg.sigs {"0075"}) (initState defaultConfig)).2).2).2.pump
      = true ∧
    (machine_control defaultConfig (some false)
      (valves_control (VArg.sigs {"0075"})
        (valves_control (VArg.sigs {"0075"}) (initState defaultConfig)).2).2).2.signals
      = ["0075"] := by
  refine ⟨by decide, by decide, by decide⟩

/-- C7, amended: whenever `machine_control(OFF)` returns normally the
resulting state has working = false, and when it was called on a *working*
interface the stop path has moreover established pump = false (the stop loop
only exits with the pump off), air = false and an empty signal list.  On a
non-working interface it returns immediately, leaving the state — including
any pump/signal residue left by direct valve calls — untouched. -/
theorem C7_amended (cfg : Config) (s s' : IState) (b : Bool)
    (h : machine_control cfg (some false) s = (Except.ok b, s')) :
    s'.working = false ∧
    (s.working = true → s'.pump = false ∧ s'.air = false ∧ s'.signals = []) := by
  unfold machine_control at h
  dsimp only at h
  by_cases hw : s.working = true
  · rw [if_pos hw] at h
    rcases ep : pump_control cfg (some false) s with ⟨rp, s1⟩
    rw [ep] at h
    cases rp with
    | error e => simp [bindR] at h
    | ok v =>
      dsimp only [bindR] at h
      rw [valves_control_off] at h
      dsimp only [bindR] at h
      have hp1 : s1.pump = false := pump_control_off_ok_pump cfg s v s1 ep
      by_cases hc : s1.operation_mode = some "casting"
      · rw [if_pos hc] at h
        unfold motor_control water_control air_control at h
        dsimp only [bindR] at h
        simp only [Prod.mk.injEq] at h
        rw [← h.2]
        simp [hp1]
      · rw [if_neg hc] at h
        unfold air_control at h
        dsimp only [bindR] at h
        simp only [Prod.mk.injEq] at h
        rw [← h.2]
        simp [hp1]
  · rw [if_neg hw] at h
    simp only [Prod.mk.injEq] at h
    rw [← h.2]
    constructor
    · simpa using hw
    · intro hcontra
      exact absurd hcontra hw

/-- C7, witness: the amended theorem evaluated on a working punching
interface (pump already off). -/
theorem C7_amended_witness :
    (machine_control defaultConfig (some false)
      { initState defaultConfig with
        working := true, operation_mode := some "punching" }).2.working = false ∧
    (machine_control defaultConfig (some false)
      { initState defaultConfig with
        working := true, operation_mode := some "punching" }).2.pump = false ∧
    (machine_control defaultConfig (some false)
      { initState defaultConfig with
        working := true, operation_mode := some "punching" }).2.air = false ∧
    (machine_control defaultConfig (some false)
      { initState defaultConfig with
        working := true, operation_mode := some "punching" }).2.signals = [] := by
  have h := C7_amended defaultConfig
    { initState defaultConfig with
      working := true, operation_mode := some "punching" }
    (machine_control defaultConfig (some false)
      { initState defaultConfig with
        working := true, operation_mode := some "punching" }).2
    false (by decide)
  exact ⟨h.1, (h.2 rfl).1, (h.2 rfl).2.1, (h.2 rfl).2.2⟩

/-- C8: `rpm()` returns 0 when `meter_events` holds fewer than two timestamps
(an empty FIFO hits the IndexError path, a single timestamp gives span 0),
when the span from the first to the last timestamp is 0, or when that span
exceeds `sensor_timeout`; otherwise it returns
`(number_of_events - 1) / span * 60`, rounded to two decimal places. -/
theorem C8_rpm (t : ℚ) (events : List ℚ) :
    (events.length < 2 → rpm t events = 0) ∧
    (events.getLastD 0 - events.headD 0 = 0 → rpm t events = 0) ∧
    (t < events.getLastD 0 - events.headD 0 → rpm t events = 0) ∧
    (2 ≤ events.length → events.getLastD 0 - events.headD 0 ≠ 0 →
      events.getLastD 0 - events.headD 0 ≤ t →
      rpm t events = round2 (((events.length : ℚ) - 1) /
        (events.getLastD 0 - events.headD 0) * 60)) := by
  refine ⟨?_, ?_, ?_, ?_⟩
  · intro hlen
    cases events with
    | nil => rfl
    | cons e0 tl =>
      cases tl with
      | nil => simp [rpm]
      | cons e1 tl2 => exact absurd hlen (by simp only [List.length_cons]; omega)
  · intro hd
    cases events with
    | nil => rfl
    | cons e0 tl =>
      simp only [List.headD] at hd
      unfold rpm
      dsimp only
      rw [if_pos (Or.inl hd)]
  · intro ht
    cases events with
    | nil => rfl
    | cons e0 tl =>
      simp only [List.headD] at ht
      unfold rpm
      dsimp only
      rw [if_pos (Or.inr ht)]
  · intro hlen hd ht
    cases events with
    | nil => simp at hlen
    | cons e0 tl =>
      simp only [List.headD] at hd ht
      unfold rpm
      dsimp only
      rw [if_neg (by push_neg; exact ⟨hd, not_lt.mp (by exact not_lt.mpr ht)⟩)]
      rfl

/-- C8, witness: the theorem evaluated on a single-sample FIFO (0) and on two
samples one second apart with the default 5-second sensor timeout
(one rotation per second = 60 rpm). -/
theorem C8_rpm_witness : rpm 5 [(3 : ℚ)] = 0 ∧ rpm 5 [(0 : ℚ), 1] = 60 := by
  constructor
  · exact (C8_rpm 5 [(3 : ℚ)]).1 (by norm_num)
  · have h := (C8_rpm 5 [(0 : ℚ), 1]).2.2.2 (by norm_num) (by norm_num) (by norm_num)
    rw [h]
    norm_num [round2]

/-- C9: in every reachable interface state the two justification wedge
positions lie in [1, 15].  They are initialized to 15 by `__init__`
(`Reachable.init`), and every update by `update_pump_and_wedges` either picks
the smallest row name "1".."14" present in the signal list (`minRowOr15`,
bounded by `minRowOr15_bounds`) or defaults to 15. -/
theorem C9_wedge_range (cfg : Config) (s : IState) (h : Reachable cfg s) :
    1 ≤ s.wedge_0005 ∧ s.wedge_0005 ≤ 15 ∧ 1 ≤ s.wedge_0075 ∧ s.wedge_0075 ≤ 15 := by
  obtain ⟨⟨a, b⟩, c, d⟩ := wedgeInv_reachable h
  exact ⟨a, b, c, d⟩

/-- C9, witness: the theorem evaluated at the freshly constructed interface
(both wedges at their initial 15). -/
theorem C9_wedge_range_witness :
    1 ≤ (initState defaultConfig).wedge_0005 ∧
    (initState defaultConfig).wedge_0005 ≤ 15 ∧
    1 ≤ (initState defaultConfig).wedge_0075 ∧
    (initState defaultConfig).wedge_0075 ≤ 15 :=
  C9_wedge_range defaultConfig (initState defaultConfig) Reachable.init

/-- C10: while the operation mode is not casting, setting `row16_mode` to any
value outside {"HMN", "KMN", "unit shift", None, "reset"} is silently ignored:
the setter returns without error and the whole state — the stored `row16_mode`
included — is unchanged (first conjunct); and an unsupported-row16-mode error
can only ever arise while the operation mode is casting (second conjunct,
which holds for every configuration, state and argument). -/
theorem C10_row16_setter (cfg : Config) (s : IState) (v : String)
    (hop : s.operation_mode ≠ some "casting")
    (hv : v ∉ ["reset", "HMN", "KMN", "unit shift"]) :
    setRow16Mode cfg (some v) s = (Except.ok (), s) ∧
    (∀ (cfg' : Config) (s' : IState) (m : Option String) (e : Err) (s'' : IState),
      setRow16Mode cfg' m s' = (Except.error e, s'') →
      s'.operation_mode = some "casting") := by
  simp only [List.mem_cons, List.mem_singleton] at hv
  push_neg at hv
  obtain ⟨hv1, hv2, hv3, hv4⟩ := hv
  constructor
  · unfold setRow16Mode
    rw [if_neg (by simp [hv1]), if_neg (by simp), if_neg hop,
      if_neg (by simp [hv2, hv3, hv4])]
  · intro cfg' s' m e s'' h
    unfold setRow16Mode at h
    by_cases h1 : m = some "reset"
    · rw [if_pos h1] at h
      simp at h
    rw [if_neg h1] at h
    by_cases h2 : m = none
    · rw [if_pos h2] at h
      simp at h
    rw [if_neg h2] at h
    by_cases h3 : s'.operation_mode = some "casting"
    · exact h3
    rw [if_neg h3] at h
    by_cases h4 : m.getD "" ∈ ["HMN", "KMN", "unit shift"]
    · rw [if_pos h4] at h
      simp at h
    · rw [if_neg h4] at h
      simp at h

/-- C10, witness: the theorem evaluated on a punching-mode interface with the
unsupported value "XYZ". -/
theorem C10_row16_setter_witness :
    setRow16Mode defaultConfig (some "XYZ")
      { initState defaultConfig with operation_mode := some "punching" } =
      (Except.ok (),
       { initState defaultConfig with operation_mode := some "punching" }) :=
  (C10_row16_setter defaultConfig
    { initState defaultConfig with operation_mode := some "punching" }
    "XYZ" (by decide) (by decide)).1
